import Mathlib

/-!
Verification development for the MK Finder MVP backend (`main.py`).

The Python source is shallowly embedded: text is modelled as `List Char`
(the code lowercases its input with `str.lower` before all matching, modelled
by `pyLower`), the ad-hoc regular expressions of the source are embedded as
bespoke scanners with the same leftmost-match / alternation-order / greedy
semantics, Python floats are modelled as `ℚ` (every numeric literal the code
manipulates is decimal), and code that can raise is modelled in
`Except Unit`.
-/

namespace MKFinder

/-- Python `\s` on the inputs at hand: ASCII whitespace. -/
def isSpacePy (c : Char) : Bool :=
  c = ' ' || c = '\t' || c = '\n' || c = '\r' || c = '\x0b' || c = '\x0c'

/-- Python `\w` (a word character) restricted to the alphabet that actually
occurs in the gazetteer, the vocabulary and the claim inputs: ASCII
alphanumerics, underscore, and the lowercase Spanish accented letters. -/
def isWordChar (c : Char) : Bool :=
  c.isAlphanum || c = '_' ||
  c = 'á' || c = 'é' || c = 'í' || c = 'ó' || c = 'ú' || c = 'ü' || c = 'ñ'

/-- Python `str.lower` on the alphabet used by this code: ASCII letters plus
the uppercase Spanish accented letters. -/
def lowerChar (c : Char) : Char :=
  if c = 'Á' then 'á' else if c = 'É' then 'é' else if c = 'Í' then 'í'
  else if c = 'Ó' then 'ó' else if c = 'Ú' then 'ú' else if c = 'Ü' then 'ü'
  else if c = 'Ñ' then 'ñ'
  else if 'A' ≤ c && c ≤ 'Z' then Char.ofNat (c.toNat + 32) else c

/-- The lowercased character list of a query string (`t = texto.lower()`). -/
def pyLower (s : String) : List Char := s.toList.map lowerChar

/-- Python `pat in t` (substring containment). -/
def hasInfix (pat : List Char) : List Char → Bool
  | [] => pat.isEmpty
  | c :: rest => pat.isPrefixOf (c :: rest) || hasInfix pat rest

/-- Word boundary to the left of a position whose previous character is
`prev` (`none` at the start of the text): `\b` before a word character. -/
def boundaryB : Option Char → Bool
  | none => true
  | some c => !isWordChar c

/-- Scanner for `re.search(r"\b<key>\b", t)` where `key` starts and ends
with word characters (true for every gazetteer key). `prev` is the character
before the current position. -/
def searchWordAux (key : List Char) : Option Char → List Char → Bool
  | _, [] => false
  | prev, c :: rest =>
    (boundaryB prev && key.isPrefixOf (c :: rest) &&
      boundaryB (((c :: rest).drop key.length).head?))
    || searchWordAux key (some c) rest

def searchWord (key : List Char) (t : List Char) : Bool :=
  searchWordAux key none t

/-- Scanner for `re.search(rf"\b{tp}s?\b", t)` (a vocabulary word with an
optional plural `s`). -/
def searchPluralAux (key : List Char) : Option Char → List Char → Bool
  | _, [] => false
  | prev, c :: rest =>
    (boundaryB prev && key.isPrefixOf (c :: rest) &&
      (boundaryB (((c :: rest).drop key.length).head?) ||
       (((c :: rest).drop key.length).head? = some 's' &&
        boundaryB (((c :: rest).drop (key.length + 1)).head?))))
    || searchPluralAux key (some c) rest

def searchPlural (key : List Char) (t : List Char) : Bool :=
  searchPluralAux key none t

/-- Greedy match of the token `\d+[\d\.,]*` at the head of `t`; returns the
token and the remaining text. -/
def numTok (t : List Char) : Option (List Char × List Char) :=
  match t with
  | [] => none
  | c :: rest =>
    if c.isDigit then
      some (c :: rest.takeWhile (fun d => d.isDigit || d = '.' || d = ','),
            rest.dropWhile (fun d => d.isDigit || d = '.' || d = ','))
    else none

def digitVal (c : Char) : Nat := c.toNat - '0'.toNat

def digitsToNat (ds : List Char) : Nat :=
  ds.foldl (fun acc c => 10 * acc + digitVal c) 0

/-- Python `float(s)` on a string of digits and at most one dot (the only
shapes reaching it in this code; no signs or exponents occur).  Returns
`none` exactly when `float` raises `ValueError`. -/
def pyFloat (s : List Char) : Option ℚ :=
  let intPart := s.takeWhile (· ≠ '.')
  let rest := s.dropWhile (· ≠ '.')
  if !intPart.all Char.isDigit then none
  else
    match rest with
    | [] => if intPart.isEmpty then none else some (digitsToNat intPart : ℚ)
    | _ :: frac =>
      if frac.contains '.' || !frac.all Char.isDigit then none
      else if intPart.isEmpty && frac.isEmpty then none
      else some ((digitsToNat intPart : ℚ) +
                 (digitsToNat frac : ℚ) / (10 ^ frac.length : ℚ))

/-- `_to_float`: strip every dot, turn every comma into a dot, then
`float(...)`.  `none` models the uncaught `ValueError`. -/
def _to_float (s : List Char) : Option ℚ :=
  pyFloat ((s.filter (· ≠ '.')).map (fun c => if c = ',' then '.' else c))

/-- Result of `_range_money_pattern.search`: the first alternative
`(hasta|max(?:imo)?|tope)\s*(\$|usd|s\/?|soles)?\s*(\d+[\d\.,]*)` yields
`ceiling` (groups 2 and 3), the second alternative
`entre\s*(\d+[\d\.,]*)\s*(y|-|a)\s*(\d+[\d\.,]*)\s*(usd|\$|s\/?|soles)?`
yields `between` (groups 4, 6 and 7). -/
inductive RangeMatch where
  | ceiling (g2 : Option (List Char)) (g3 : List Char)
  | between (g4 g6 : List Char) (g7 : Option (List Char))
  deriving DecidableEq

def dropSpaces (t : List Char) : List Char := t.dropWhile isSpacePy

/-- The keyword alternative `(hasta|max(?:imo)?|tope)`; returns the rest of
the text after the keyword.  The regex engine prefers `maximo` (greedy
`(?:imo)?`) over `max`; backtracking from `maximo` to `max` can never
rescue a failed continuation, because the continuation would then have to
start at the letter `i`, which begins no currency marker, no space and no
digit — so a fixed longest-first trial is equivalent. -/
def kwCeil (t : List Char) : Option (List Char) :=
  if "hasta".toList.isPrefixOf t then some (t.drop 5)
  else if "maximo".toList.isPrefixOf t then some (t.drop 6)
  else if "max".toList.isPrefixOf t then some (t.drop 3)
  else if "tope".toList.isPrefixOf t then some (t.drop 4)
  else none

/-- Try the optional currency marker alternatives of the ceiling pattern at
`a`, in regex order, each followed by `\s*(\d+[\d\.,]*)`; on failure of a
continuation the engine backtracks to the next alternative, and finally to
the empty (no-marker) option. -/
def ceilCur (a : List Char) : List (List Char) → Option (Option (List Char) × List Char)
  | [] =>
    match numTok a with
    | some (n, _) => some (none, n)
    | none => none
  | cur :: alts =>
    if cur.isPrefixOf a then
      match numTok (dropSpaces (a.drop cur.length)) with
      | some (n, _) => some (some cur, n)
      | none => ceilCur a alts
    else ceilCur a alts

/-- The alternatives of `(\$|usd|s\/?|soles)?` in regex order (greedy `/?`
makes `s/` precede `s`). -/
def ceilCurAlts : List (List Char) :=
  [['$'], "usd".toList, ['s', '/'], ['s'], "soles".toList]

/-- Match the first alternative of `_range_money_pattern` at the current
position. -/
def tryCeilAt (t : List Char) : Option RangeMatch :=
  match kwCeil t with
  | none => none
  | some rest =>
    match ceilCur (dropSpaces rest) ceilCurAlts with
    | some (g2, g3) => some (.ceiling g2 g3)
    | none => none

/-- The trailing optional currency `(usd|\$|s\/?|soles)?` of the `entre`
alternative (the pattern ends after it, so the first matching alternative
wins). -/
def betwCur (r : List Char) : Option (List Char) :=
  if "usd".toList.isPrefixOf r then some "usd".toList
  else if ['$'].isPrefixOf r then some ['$']
  else if ['s', '/'].isPrefixOf r then some ['s', '/']
  else if ['s'].isPrefixOf r then some ['s']
  else if "soles".toList.isPrefixOf r then some "soles".toList
  else none

/-- Match the second alternative of `_range_money_pattern` at the current
position.  The greedy number token never swallows the separator (`y`, `-`
and `a` are outside `[\d\.,]`), and `\s*` never swallows it either, so
maximal munch needs no backtracking here. -/
def tryBetweenAt (t : List Char) : Option RangeMatch :=
  if "entre".toList.isPrefixOf t then
    match numTok (dropSpaces (t.drop 5)) with
    | none => none
    | some (n1, r1) =>
      match dropSpaces r1 with
      | [] => none
      | c :: r3 =>
        if c = 'y' || c = '-' || c = 'a' then
          match numTok (dropSpaces r3) with
          | none => none
          | some (n2, r4) => some (.between n1 n2 (betwCur (dropSpaces r4)))
        else none
  else none

/-- `_range_money_pattern.search(t)`: scan positions left to right, at each
position try the first alternative then the second. -/
def searchRangeMoney : List Char → Option RangeMatch
  | [] => none
  | c :: rest =>
    match tryCeilAt (c :: rest) with
    | some m => some m
    | none =>
      match tryBetweenAt (c :: rest) with
      | some m => some m
      | none => searchRangeMoney rest

/-- The alternatives of `(\$|usd|dolares|dólares|\bs\/?|soles)` available at
a position, in regex order; the `s\/?` branch carries a word boundary, so
its two greedy variants are only tried when the previous character is a
non-word character (or the position is the start of the text). -/
def moneyAlts (bnd : Bool) : List (List Char) :=
  [['$'], "usd".toList, "dolares".toList, "dólares".toList] ++
  (if bnd then [['s', '/'], ['s']] else []) ++ ["soles".toList]

/-- Try `_money_pattern` at the current position: a currency alternative
followed by `\s*(\d+[\d\.,]*)`, backtracking to later alternatives when the
number fails to follow. -/
def tryMoneyAt (t : List Char) : List (List Char) → Option (List Char × List Char)
  | [] => none
  | cur :: alts =>
    if cur.isPrefixOf t then
      match numTok (dropSpaces (t.drop cur.length)) with
      | some (n, _) => some (cur, n)
      | none => tryMoneyAt t alts
    else tryMoneyAt t alts

/-- `_money_pattern.search(t)` (the code only uses the first match of
`finditer`, which coincides with `search`): returns groups 1 and 2. -/
def searchMoneyAux : Option Char → List Char → Option (List Char × List Char)
  | _, [] => none
  | prev, c :: rest =>
    match tryMoneyAt (c :: rest) (moneyAlts (boundaryB prev)) with
    | some m => some m
    | none => searchMoneyAux (some c) rest

def searchMoney (t : List Char) : Option (List Char × List Char) :=
  searchMoneyAux none t

/-- First match of `_dorm_pattern = (\d+)\s*(dorm|dormitorio|habitaci[oó]n|hab)`;
returns group 1.  Maximal munch is exact here: `\s*` cannot eat digits and
the keyword starts with a non-space, non-digit letter. -/
def dormKw (s : List Char) : Bool :=
  "dorm".toList.isPrefixOf s || "dormitorio".toList.isPrefixOf s ||
  "habitacion".toList.isPrefixOf s || "habitación".toList.isPrefixOf s ||
  "hab".toList.isPrefixOf s

def searchDorm : List Char → Option (List Char)
  | [] => none
  | c :: rest =>
    if c.isDigit then
      if dormKw (dropSpaces (rest.dropWhile Char.isDigit)) then
        some (c :: rest.takeWhile Char.isDigit)
      else searchDorm rest
    else searchDorm rest

/-- First match of `_banos_pattern = (\d+(?:\.5)?)\s*(baño|banos|baños)`;
returns the value of `float(group(1))` (digits optionally followed by the
literal `.5`, so the conversion never fails).  The greedy optional `.5` is
tried first and backtracked when the bathroom word does not follow. -/
def banoKw (s : List Char) : Bool :=
  "baño".toList.isPrefixOf s || "banos".toList.isPrefixOf s ||
  "baños".toList.isPrefixOf s

def searchBanos : List Char → Option ℚ
  | [] => none
  | c :: rest =>
    if c.isDigit then
      let ds := c :: rest.takeWhile Char.isDigit
      let r := rest.dropWhile Char.isDigit
      if ['.', '5'].isPrefixOf r && banoKw (dropSpaces (r.drop 2)) then
        some ((digitsToNat ds : ℚ) + 1 / 2)
      else if banoKw (dropSpaces r) then
        some (digitsToNat ds : ℚ)
      else searchBanos rest
    else searchBanos rest

/-- `_number_pattern.finditer` (`\d+[\.,]?\d*`, non-overlapping, greedy) as
a single left-to-right pass; the accumulator holds the current token
reversed together with a flag telling whether its single optional separator
has been consumed. -/
def numsGo (acc : Option (List Char × Bool)) : List Char → List (List Char)
  | [] =>
    match acc with
    | some (a, _) => [a.reverse]
    | none => []
  | c :: rest =>
    match acc with
    | none =>
      if c.isDigit then numsGo (some ([c], false)) rest else numsGo none rest
    | some (a, false) =>
      if c.isDigit then numsGo (some (c :: a, false)) rest
      else if c = '.' || c = ',' then numsGo (some (c :: a, true)) rest
      else a.reverse :: numsGo none rest
    | some (a, true) =>
      if c.isDigit then numsGo (some (c :: a, true)) rest
      else a.reverse :: numsGo none rest

def findNumbers (t : List Char) : List (List Char) := numsGo none t

/-- `DISTRITOS_MAP`: synonym → canonical district, in source (dict
insertion) order. -/
def DISTRITOS_MAP : List (String × String) :=
  [("surco", "Santiago de Surco"),
   ("santiago de surco", "Santiago de Surco"),
   ("miraflores", "Miraflores"),
   ("san isidro", "San Isidro"),
   ("barranco", "Barranco"),
   ("la molina", "La Molina"),
   ("san borja", "San Borja"),
   ("san miguel", "San Miguel"),
   ("magdalena", "Magdalena del Mar"),
   ("magdalena del mar", "Magdalena del Mar"),
   ("jesus maria", "Jesús María"),
   ("jesús maría", "Jesús María"),
   ("lince", "Lince"),
   ("pueblo libre", "Pueblo Libre"),
   ("san luis", "San Luis"),
   ("cercado", "Lima"),
   ("lima", "Lima"),
   ("breña", "Breña"),
   ("rimac", "Rímac"),
   ("rímac", "Rímac"),
   ("chorrillos", "Chorrillos"),
   ("surquillo", "Surquillo"),
   ("ate", "Ate"),
   ("santa anita", "Santa Anita"),
   ("la victoria", "La Victoria"),
   ("sjm", "San Juan de Miraflores"),
   ("san juan de miraflores", "San Juan de Miraflores"),
   ("ves", "Villa El Salvador"),
   ("villa el salvador", "Villa El Salvador"),
   ("vmt", "Villa María del Triunfo"),
   ("villa maria del triunfo", "Villa María del Triunfo"),
   ("comas", "Comas"),
   ("los olivos", "Los Olivos"),
   ("san martin de porres", "San Martín de Porres"),
   ("san martín de porres", "San Martín de Porres"),
   ("independencia", "Independencia"),
   ("carabayllo", "Carabayllo"),
   ("puente piedra", "Puente Piedra"),
   ("callao", "Callao"),
   ("la perla", "La Perla"),
   ("bellavista", "Bellavista"),
   ("la punta", "La Punta")]

def TIPOS : List String :=
  ["departamento", "casa", "dúplex", "duplex", "flat", "oficina", "local",
   "terreno"]

/-- Python string `<` — lexicographic comparison by code point. -/
def ltL : List Char → List Char → Bool
  | [], [] => false
  | [], _ :: _ => true
  | _ :: _, [] => false
  | a :: as, b :: bs =>
    if a.toNat < b.toNat then true
    else if b.toNat < a.toNat then false
    else ltL as bs

/-- Insert into an ascending list (used to model Python `sorted` on
duplicate-free string lists, whose result is the unique ascending
enumeration). -/
def insSorted (a : String) : List String → List String
  | [] => [a]
  | b :: l => if ltL b.toList a.toList then b :: insSorted a l else a :: b :: l

def pySortStr : List String → List String
  | [] => []
  | a :: l => insSorted a (pySortStr l)

/-- Python `list(dict.fromkeys(l))`: deduplicate keeping first
occurrences. -/
def dedupGo (seen : List String) : List String → List String
  | [] => []
  | a :: l => if seen.contains a then dedupGo seen l else a :: dedupGo (a :: seen) l

def pyDedup (l : List String) : List String := dedupGo [] l

/-- The detected canonical districts, in `DISTRITOS_MAP` order (the loop
body `distritos_detectados.append(canon)`). -/
def detectDistritos (t : List Char) : List String :=
  DISTRITOS_MAP.filterMap
    (fun kv => if searchWord kv.1.toList t then some kv.2 else none)

/-- `ConsultaEstructurada`: the structured filter (all Pydantic defaults are
`None`; `distritos` defaults to `[]`). -/
structure ConsultaEstructurada where
  operacion : Option String := none
  distritos : List String := []
  tipo : Option (List String) := none
  precio_min : Option ℚ := none
  precio_max : Option ℚ := none
  moneda : Option String := none
  area_min_m2 : Option ℚ := none
  area_max_m2 : Option ℚ := none
  dormitorios_min : Option Int := none
  dormitorios_max : Option Int := none
  banos_min : Option ℚ := none
  banos_max : Option ℚ := none
  cocheras_min : Option Int := none
  ascensor : Option Bool := none
  terraza : Option Bool := none
  amoblado : Option Bool := none
  pet_friendly : Option Bool := none
  deriving DecidableEq

/-- A listing dictionary; a missing key (`dict.get` returning `None`) is
`none`. -/
structure Listing where
  id_fuente : String := ""
  fuente : String := ""
  titulo : String := ""
  operacion : Option String := none
  tipo : Option String := none
  precio : Option ℚ := none
  moneda : Option String := none
  area_total_m2 : Option ℚ := none
  dormitorios : Option Int := none
  banos : Option ℚ := none
  cocheras : Option Int := none
  ascensor : Option Bool := none
  terraza : Option Bool := none
  amoblado : Option Bool := none
  pet_friendly : Option Bool := none
  distrito : Option String := none
  url_aviso : String := ""
  deriving DecidableEq

/-- `_norm_moneda` (its argument comes from already-lowercased text; the
empty token models `group(n) or ""`). -/
def _norm_moneda (token : List Char) : Option String :=
  if token = ['$'] || token = "usd".toList || token = "dolares".toList ||
     token = "dólares".toList then some "USD"
  else if token = ['s', '/'] || token = ['s'] || token = "soles".toList then
    some "PEN"
  else none

def extractOperacion (t : List Char) : Option String :=
  if hasInfix "alquiler".toList t || hasInfix "alquilo".toList t ||
     hasInfix "alquilar".toList t then some "alquiler"
  else if hasInfix "venta".toList t || hasInfix "comprar".toList t ||
          hasInfix "compro".toList t || hasInfix "vendo".toList t then
    some "venta"
  else none

def normTipo (tp : String) : String :=
  if tp = "dúplex" || tp = "duplex" then "dúplex" else tp

def extractTipo (t : List Char) : Option (List String) :=
  let det := TIPOS.filter (fun tp => searchPlural tp.toList t)
  if det.isEmpty then none
  else some (pySortStr (pyDedup (det.map normTipo)))

/-- The price section of `parse_query_to_filters` (lines 139-158): returns
`(precio_min, precio_max, moneda)`; `.error` models the uncaught
`ValueError` of `_to_float` on a malformed numeric token. -/
def precioExtract (t : List Char) :
    Except Unit (Option ℚ × Option ℚ × Option String) :=
  match searchRangeMoney t with
  | some (.ceiling g2 g3) =>
    match _to_float g3 with
    | none => .error ()
    | some v => .ok (none, some v, _norm_moneda (g2.getD []))
  | some (.between g4 g6 g7) =>
    match _to_float g4 with
    | none => .error ()
    | some lo =>
      match _to_float g6 with
      | none => .error ()
      | some hi =>
        .ok (some (min lo hi), some (max lo hi), _norm_moneda (g7.getD []))
  | none =>
    match searchMoney t with
    | some (g1, g2) =>
      match _to_float g2 with
      | none => .error ()
      | some v => .ok (none, some v, _norm_moneda g1)
    | none => .ok (none, none, none)

/-- The area section: only fires when the text contains `m2`/`m²`; takes the
last `_number_pattern` token of the whole text; `_to_float` failures are
swallowed by the `try/except` (they cannot in fact occur for this token
shape). -/
def extractArea (t : List Char) : Option ℚ :=
  if hasInfix "m2".toList t || hasInfix "m²".toList t then
    match (findNumbers t).getLast? with
    | some n => _to_float n
    | none => none
  else none

def extractDorm (t : List Char) : Option Int :=
  (searchDorm t).map (fun ds => (digitsToNat ds : Int))

/-- `parse_query_to_filters`: the extractor.  The sub-extractions of the
source write disjoint fields of the result, so they are assembled in one
record; the price section is the only one that can raise, and when it does
the remaining sections never run (they are total, so this is observationally
faithful). -/
def parse_query_to_filters (texto : String) :
    Except Unit ConsultaEstructurada :=
  let t := pyLower texto
  match precioExtract t with
  | .error e => .error e
  | .ok (pmin, pmax, mon) =>
    .ok { operacion := extractOperacion t
          distritos := pySortStr (pyDedup (detectDistritos t))
          tipo := extractTipo t
          precio_min := pmin
          precio_max := pmax
          moneda := mon
          area_min_m2 := extractArea t
          dormitorios_min := extractDorm t
          banos_min := searchBanos t
          cocheras_min := if hasInfix "cochera".toList t then some 1 else none
          ascensor := if hasInfix "ascensor".toList t then some true else none
          terraza := if hasInfix "terraza".toList t then some true else none
          amoblado := if hasInfix "amoblado".toList t then some true else none
          pet_friendly :=
            if hasInfix "pet friendly".toList t ||
               hasInfix "pet-friendly".toList t ||
               hasInfix "mascotas".toList t then some true else none }

instance {ε α : Type} [DecidableEq ε] [DecidableEq α] :
    DecidableEq (Except ε α) := fun a b =>
  match a, b with
  | .error x, .error y =>
    if h : x = y then .isTrue (by rw [h])
    else .isFalse (fun hh => h (Except.error.inj hh))
  | .ok x, .ok y =>
    if h : x = y then .isTrue (by rw [h])
    else .isFalse (fun hh => h (Except.ok.inj hh))
  | .error _, .ok _ => .isFalse (fun hh => Except.noConfusion hh)
  | .ok _, .error _ => .isFalse (fun hh => Except.noConfusion hh)

/-- Python truthiness of an optional string (`None` and `""` are falsy). -/
def truthyStr : Option String → Bool
  | none => false
  | some s => decide (s ≠ "")

/-- Python truthiness of an optional string list (`None` and `[]` are
falsy). -/
def truthyList : Option (List String) → Bool
  | none => false
  | some l => decide (l ≠ [])

/-- Python truthiness of an optional float (`None` and `0.0` are falsy). -/
def truthyQ : Option ℚ → Bool
  | none => false
  | some x => decide (x ≠ 0)

/-- Python truthiness of an optional int (`None` and `0` are falsy). -/
def truthyZ : Option Int → Bool
  | none => false
  | some n => decide (n ≠ 0)

/-- Membership of a value that Python compares against `(None, [], "")`:
a float, int or bool value is never equal to any of them, so presence is
just being set; string and list fields are handled by the `truthy`
functions above. -/
def _is_valid_consulta (c : ConsultaEstructurada) : Bool :=
  if c.distritos = [] then false
  else
    truthyList c.tipo || c.precio_min.isSome || c.precio_max.isSome ||
    c.area_min_m2.isSome || c.area_max_m2.isSome ||
    c.dormitorios_min.isSome || c.dormitorios_max.isSome ||
    c.banos_min.isSome || c.banos_max.isSome || c.cocheras_min.isSome ||
    c.ascensor.isSome || c.terraza.isSome || c.amoblado.isSome ||
    c.pet_friendly.isSome || truthyStr c.operacion

/-- `prop.get("distrito") not in c.distritos` is the rejecting condition; a
missing district is never a member. -/
def distritoIn (l : Listing) (c : ConsultaEstructurada) : Bool :=
  match l.distrito with
  | none => false
  | some d => c.distritos.contains d

def tipoIn (l : Listing) (c : ConsultaEstructurada) : Bool :=
  match l.tipo, c.tipo with
  | some tp, some lst => lst.contains tp
  | _, _ => false

/-- The early-return checks of `_match` before the price lines (district,
operation, type); all total. -/
def preReject (l : Listing) (c : ConsultaEstructurada) : Bool :=
  !distritoIn l c ||
  (truthyStr c.operacion && !(l.operacion == c.operacion)) ||
  (truthyList c.tipo && !tipoIn l c)

/-- `if c.precio_min and price < c.precio_min`: skipped when the bound is
`None` or `0`; otherwise comparing a missing price (`None`) raises
`TypeError`, modelled by `.error ()`.  `.ok true` means "reject". -/
def lowCheck (bound : Option ℚ) (v : Option ℚ) : Except Unit Bool :=
  match bound with
  | none => .ok false
  | some m =>
    if m = 0 then .ok false
    else
      match v with
      | none => .error ()
      | some p => .ok (decide (p < m))

/-- `if c.precio_max and price > c.precio_max`, same conventions. -/
def highCheck (bound : Option ℚ) (v : Option ℚ) : Except Unit Bool :=
  match bound with
  | none => .ok false
  | some m =>
    if m = 0 then .ok false
    else
      match v with
      | none => .error ()
      | some p => .ok (decide (m < p))

/-- The checks of `_match` after the price lines (currency, area, rooms,
bathrooms, parking, boolean amenities); all total, with every missing
numeric attribute defaulted to `0` by `or 0`. -/
def postReject (l : Listing) (c : ConsultaEstructurada) : Bool :=
  (truthyStr c.moneda && !(l.moneda == c.moneda)) ||
  (truthyQ c.area_min_m2 &&
    decide (l.area_total_m2.getD 0 < c.area_min_m2.getD 0)) ||
  (truthyQ c.area_max_m2 &&
    decide (c.area_max_m2.getD 0 < l.area_total_m2.getD 0)) ||
  (truthyZ c.dormitorios_min &&
    decide (l.dormitorios.getD 0 < c.dormitorios_min.getD 0)) ||
  (truthyQ c.banos_min && decide (l.banos.getD 0 < c.banos_min.getD 0)) ||
  (truthyZ c.cocheras_min &&
    decide (l.cocheras.getD 0 < c.cocheras_min.getD 0)) ||
  (c.ascensor == some true && !(l.ascensor == some true)) ||
  (c.terraza == some true && !(l.terraza == some true)) ||
  (c.amoblado == some true && !(l.amoblado == some true)) ||
  (c.pet_friendly == some true && !(l.pet_friendly == some true))

/-- `_match(prop, c)`: the source returns `False` at the first failing
check; the checks before the price comparisons and after them are total, so
they are folded into `preReject`/`postReject`, while the two price lines —
the only ones that can raise — keep their position and short-circuiting. -/
def _match (prop : Listing) (c : ConsultaEstructurada) : Except Unit Bool :=
  if preReject prop c then .ok false
  else
    match lowCheck c.precio_min prop.precio with
    | .error e => .error e
    | .ok true => .ok false
    | .ok false =>
      match highCheck c.precio_max prop.precio with
      | .error e => .error e
      | .ok true => .ok false
      | .ok false => .ok (!postReject prop c)

/-- The sort key `x.get("precio") or 0`. -/
def keyPrecio (l : Listing) : ℚ := l.precio.getD 0

/-- Stable insertion used to model Python's stable `list.sort` by
`keyPrecio` (any two stable sorts under the same total key preorder agree
pointwise). -/
def insListing (a : Listing) : List Listing → List Listing
  | [] => [a]
  | b :: l =>
    if keyPrecio a ≤ keyPrecio b then a :: b :: l else b :: insListing a l

def pySortListings : List Listing → List Listing
  | [] => []
  | a :: l => insListing a (pySortListings l)

/-- The comprehension `[p for p in data if _match(p, consulta)]`; an
exception escaping `_match` escapes the comprehension. -/
def filterMatches (c : ConsultaEstructurada) :
    List Listing → Except Unit (List Listing)
  | [] => .ok []
  | l :: ls =>
    match _match l c with
    | .error e => .error e
    | .ok b =>
      match filterMatches c ls with
      | .error e => .error e
      | .ok rest => .ok (if b then l :: rest else rest)

/-- The core of `buscar` after validation: filter, then stable-sort by
price ascending (missing price sorts as `0`); no currency conversion. -/
def buscarCore (c : ConsultaEstructurada) (listings : List Listing) :
    Except Unit (List Listing) :=
  (filterMatches c listings).map pySortListings

def mockSurco : Listing :=
  { id_fuente := "urbania:001", fuente := "urbania",
    titulo := "Dúplex frente a parque", operacion := some "venta",
    tipo := some "departamento", precio := some 205000,
    moneda := some "USD", area_total_m2 := some 84,
    dormitorios := some 3, banos := some 2, cocheras := some 1,
    ascensor := some true, terraza := some true,
    distrito := some "Santiago de Surco",
    url_aviso := "https://urbania.pe/aviso/001" }

def mockMiraflores : Listing :=
  { id_fuente := "properati:1001", fuente := "properati",
    titulo := "Flat céntrico con ascensor", operacion := some "venta",
    tipo := some "departamento", precio := some 240000,
    moneda := some "USD", area_total_m2 := some 72,
    dormitorios := some 2, banos := some 2, cocheras := some 1,
    ascensor := some true, terraza := some false,
    distrito := some "Miraflores",
    url_aviso := "https://properati.pe/prop/1001" }

def mockSanBorja : Listing :=
  { id_fuente := "urbania:777", fuente := "urbania",
    titulo := "Departamento amoblado vista ciudad",
    operacion := some "alquiler", tipo := some "departamento",
    precio := some 2500, moneda := some "PEN",
    area_total_m2 := some 95, dormitorios := some 3, banos := some 2,
    cocheras := some 1, ascensor := some true, terraza := some false,
    distrito := some "San Borja",
    url_aviso := "https://urbania.pe/aviso/777" }

def MOCK_DATA : List Listing := [mockSurco, mockMiraflores, mockSanBorja]

/-- The end-to-end scenario filter `{operation: venta, districts:
{Miraflores, Santiago de Surco}}`. -/
def consultaVenta : ConsultaEstructurada :=
  { operacion := some "venta",
    distritos := ["Miraflores", "Santiago de Surco"] }

/-- A string-valued filter field is "set" in the sense of the spec's data
model when it holds a non-empty value (the model's enums have no
empty-string member). -/
def isSetStrField : Option String → Bool
  | none => false
  | some s => decide (s ≠ "")

/-- A set-valued filter field is "set" when it holds a non-empty
collection (the data model treats an empty set as "missing"). -/
def isSetListField : Option (List String) → Bool
  | none => false
  | some l => decide (l ≠ [])

/-- `isActionable` as §4.3 of the spec states it: districts non-empty and at
least one extra parameter set.  Following the spec's data model, a string
or set-valued field is "set" when it holds a non-empty value (the data
model's enums have no empty-string member and an empty set is "missing");
for numeric and boolean fields "set" is simply presence. -/
def isActionable_spec (c : ConsultaEstructurada) : Bool :=
  decide (c.distritos ≠ []) &&
  (isSetStrField c.operacion || isSetListField c.tipo ||
   c.precio_min.isSome || c.precio_max.isSome ||
   c.area_min_m2.isSome || c.area_max_m2.isSome ||
   c.dormitorios_min.isSome || c.dormitorios_max.isSome ||
   c.banos_min.isSome || c.banos_max.isSome ||
   c.cocheras_min.isSome || c.ascensor.isSome || c.terraza.isSome ||
   c.amoblado.isSome || c.pet_friendly.isSome)

theorem lowCheck_none (v : Option ℚ) : lowCheck none v = .ok false := rfl

theorem lowCheck_zero (v : Option ℚ) : lowCheck (some 0) v = .ok false := by
  simp [lowCheck]

theorem lowCheck_missing {m : ℚ} (hm : m ≠ 0) :
    lowCheck (some m) none = .error () := by
  simp [lowCheck, hm]

theorem lowCheck_some {m : ℚ} (hm : m ≠ 0) (p : ℚ) :
    lowCheck (some m) (some p) = .ok (decide (p < m)) := by
  simp [lowCheck, hm]

theorem highCheck_none (v : Option ℚ) : highCheck none v = .ok false := rfl

theorem highCheck_zero (v : Option ℚ) : highCheck (some 0) v = .ok false := by
  simp [highCheck]

theorem highCheck_missing {m : ℚ} (hm : m ≠ 0) :
    highCheck (some m) none = .error () := by
  simp [highCheck, hm]

theorem highCheck_some {m : ℚ} (hm : m ≠ 0) (p : ℚ) :
    highCheck (some m) (some p) = .ok (decide (m < p)) := by
  simp [highCheck, hm]

theorem match_of_preReject {l : Listing} {c : ConsultaEstructurada}
    (h : preReject l c = true) : _match l c = .ok false := by
  simp [_match, h]

/-- Characterization of acceptance by the matcher. -/
theorem match_ok_true_iff (l : Listing) (c : ConsultaEstructurada) :
    _match l c = .ok true ↔
      preReject l c = false ∧
      lowCheck c.precio_min l.precio = .ok false ∧
      highCheck c.precio_max l.precio = .ok false ∧
      postReject l c = false := by
  unfold _match
  cases hp : preReject l c
  · cases hl : lowCheck c.precio_min l.precio with
    | error e => simp
    | ok b =>
      cases b
      · cases hh : highCheck c.precio_max l.precio with
        | error e => simp
        | ok b2 => cases b2 <;> simp
      · simp
  · simp

/-- Characterization of a `TypeError` escaping the matcher. -/
theorem match_error_iff (l : Listing) (c : ConsultaEstructurada) :
    _match l c = .error () ↔
      preReject l c = false ∧
      (lowCheck c.precio_min l.precio = .error () ∨
       (lowCheck c.precio_min l.precio = .ok false ∧
        highCheck c.precio_max l.precio = .error ())) := by
  unfold _match
  cases hp : preReject l c
  · cases hl : lowCheck c.precio_min l.precio with
    | error e => cases e; simp
    | ok b =>
      cases b
      · cases hh : highCheck c.precio_max l.precio with
        | error e => cases e; simp
        | ok b2 => cases b2 <;> simp
      · simp
  · simp

theorem match_accept {l : Listing} {c : ConsultaEstructurada}
    (hp : preReject l c = false)
    (h1 : lowCheck c.precio_min l.precio = .ok false)
    (h2 : highCheck c.precio_max l.precio = .ok false)
    (h3 : postReject l c = false) : _match l c = .ok true := by
  simp [_match, hp, h1, h2, h3]

theorem match_reject_high {l : Listing} {c : ConsultaEstructurada}
    (hp : preReject l c = false)
    (h1 : lowCheck c.precio_min l.precio = .ok false)
    (h2 : highCheck c.precio_max l.precio = .ok true) :
    _match l c = .ok false := by
  simp [_match, hp, h1, h2]

theorem lowCheck_not_truthy {bound : Option ℚ} (h : truthyQ bound = false)
    (v : Option ℚ) : lowCheck bound v = .ok false := by
  cases bound with
  | none => rfl
  | some m =>
    simp only [truthyQ, decide_eq_false_iff_not, not_not] at h
    rw [h]; exact lowCheck_zero v

theorem highCheck_not_truthy {bound : Option ℚ} (h : truthyQ bound = false)
    (v : Option ℚ) : highCheck bound v = .ok false := by
  cases bound with
  | none => rfl
  | some m =>
    simp only [truthyQ, decide_eq_false_iff_not, not_not] at h
    rw [h]; exact highCheck_zero v

theorem lowCheck_present (bound : Option ℚ) (p : ℚ) :
    ∃ b, lowCheck bound (some p) = .ok b := by
  cases bound with
  | none => exact ⟨false, rfl⟩
  | some m =>
    by_cases hm : m = 0
    · subst hm; exact ⟨false, lowCheck_zero _⟩
    · exact ⟨decide (p < m), lowCheck_some hm p⟩

theorem highCheck_present (bound : Option ℚ) (p : ℚ) :
    ∃ b, highCheck bound (some p) = .ok b := by
  cases bound with
  | none => exact ⟨false, rfl⟩
  | some m =>
    by_cases hm : m = 0
    · subst hm; exact ⟨false, highCheck_zero _⟩
    · exact ⟨decide (m < p), highCheck_some hm p⟩

/-- C10: a numeric bound set to `0` is Python-falsy, so the matcher treats
it exactly like an unset bound (for all seven bounds the matcher consults:
priceMin, priceMax, areaMinM2, areaMaxM2, bedroomsMin, bathroomsMin,
parkingMin); yet the validation rule compares fields against
`(None, [], "")`, which a numeric `0` is not a member of, so such a
0-valued bound does make a district-bearing filter actionable. -/
theorem c10_zero_bound_ignored_by_match_but_counts_for_validity :
    (∀ (l : Listing) (c : ConsultaEstructurada),
      _match l { c with precio_min := some 0 } =
        _match l { c with precio_min := none } ∧
      _match l { c with precio_max := some 0 } =
        _match l { c with precio_max := none } ∧
      _match l { c with area_min_m2 := some 0 } =
        _match l { c with area_min_m2 := none } ∧
      _match l { c with area_max_m2 := some 0 } =
        _match l { c with area_max_m2 := none } ∧
      _match l { c with dormitorios_min := some 0 } =
        _match l { c with dormitorios_min := none } ∧
      _match l { c with banos_min := some 0 } =
        _match l { c with banos_min := none } ∧
      _match l { c with cocheras_min := some 0 } =
        _match l { c with cocheras_min := none }) ∧
    (∀ c : ConsultaEstructurada, c.distritos ≠ [] →
      (c.precio_min = some 0 ∨ c.precio_max = some 0 ∨
       c.area_min_m2 = some 0 ∨ c.area_max_m2 = some 0 ∨
       c.dormitorios_min = some 0 ∨ c.banos_min = some 0 ∨
       c.cocheras_min = some 0) →
      _is_valid_consulta c = true) := by
  constructor
  · intro l c
    refine ⟨rfl, rfl, rfl, rfl, rfl, rfl, rfl⟩
  · intro c hd hz
    unfold _is_valid_consulta
    rw [if_neg hd]
    rcases hz with h | h | h | h | h | h | h <;> simp [h]

/-- Closed instance of the C10 theorem. -/
theorem c10_witness :
    _match { } { distritos := ["Lima"], precio_min := some 0 } =
      _match { } { distritos := ["Lima"] } ∧
    _is_valid_consulta { distritos := ["Lima"], precio_min := some 0 } =
      true :=
  ⟨(c10_zero_bound_ignored_by_match_but_counts_for_validity.1
      { } { distritos := ["Lima"] }).1,
   c10_zero_bound_ignored_by_match_but_counts_for_validity.2
      { distritos := ["Lima"], precio_min := some 0 } (by decide)
      (Or.inl rfl)⟩

/-- C4 counterexample: the matcher is not total.  A listing in a matching
district but with no price, against a filter with `priceMin = 5`, reaches
`price < c.precio_min` with `price = None` and raises a `TypeError`
(modelled `.error ()`), contradicting "returns a boolean and raises no
error" and "missing ... treated as having value 0" for the price field. -/
theorem c4_counterexample :
    _match { distrito := some "Miraflores" }
      { distritos := ["Miraflores"], precio_min := some 5 } = .error () :=
  rfl

/-- C4 amended: the matcher returns a boolean whenever the listing has a
price or neither price bound is (nonzero-)set; the four other numeric
attributes (area, bedrooms, bathrooms, parking) are defaulted to 0 when
missing — so a positive `*Min` bound rejects such a listing while an unset
bound still passes it — but a missing price with a truthy `priceMin`
reaches a `None` comparison and raises. -/
theorem c4_matcher_missing_attribute_behaviour :
    (∀ (c : ConsultaEstructurada) (l : Listing),
        (l.precio.isSome || (!truthyQ c.precio_min && !truthyQ c.precio_max))
          = true →
        ∃ b, _match l c = .ok b) ∧
    (∀ (c : ConsultaEstructurada) (l : Listing), l.area_total_m2 = none →
        _match l c = _match { l with area_total_m2 := some 0 } c) ∧
    (∀ (c : ConsultaEstructurada) (l : Listing), l.dormitorios = none →
        _match l c = _match { l with dormitorios := some 0 } c) ∧
    (∀ (c : ConsultaEstructurada) (l : Listing), l.banos = none →
        _match l c = _match { l with banos := some 0 } c) ∧
    (∀ (c : ConsultaEstructurada) (l : Listing), l.cocheras = none →
        _match l c = _match { l with cocheras := some 0 } c) ∧
    (∀ (c : ConsultaEstructurada) (l : Listing) (x : ℚ),
        c.area_min_m2 = some x → 0 < x → l.area_total_m2 = none →
        _match l c ≠ .ok true) ∧
    (∀ (c : ConsultaEstructurada) (l : Listing) (n : ℤ),
        c.dormitorios_min = some n → 0 < n → l.dormitorios = none →
        _match l c ≠ .ok true) ∧
    (∀ (c : ConsultaEstructurada) (l : Listing) (x : ℚ),
        c.banos_min = some x → 0 < x → l.banos = none →
        _match l c ≠ .ok true) ∧
    (∀ (c : ConsultaEstructurada) (l : Listing) (n : ℤ),
        c.cocheras_min = some n → 0 < n → l.cocheras = none →
        _match l c ≠ .ok true) ∧
    (∀ (c : ConsultaEstructurada) (l : Listing),
        preReject l c = false → truthyQ c.precio_min = true →
        l.precio = none → _match l c = .error ()) := by
  refine ⟨?_, ?_, ?_, ?_, ?_, ?_, ?_, ?_, ?_, ?_⟩
  · intro c l h
    cases hp : preReject l c
    · cases hv : l.precio with
      | some p =>
        obtain ⟨b1, h1⟩ := lowCheck_present c.precio_min p
        obtain ⟨b2, h2⟩ := highCheck_present c.precio_max p
        rw [← hv] at h1 h2
        cases b1
        · cases b2
          · exact ⟨!postReject l c, by simp [_match, hp, h1, h2]⟩
          · exact ⟨false, by simp [_match, hp, h1, h2]⟩
        · exact ⟨false, by simp [_match, hp, h1]⟩
      | none =>
        rw [hv] at h
        simp only [Option.isSome_none, Bool.false_or, Bool.and_eq_true,
          Bool.not_eq_true'] at h
        exact ⟨!postReject l c, by
          simp [_match, hp, lowCheck_not_truthy h.1, highCheck_not_truthy h.2]⟩
    · exact ⟨false, match_of_preReject hp⟩
  · intro c l h; cases l; subst h; rfl
  · intro c l h; cases l; subst h; rfl
  · intro c l h; cases l; subst h; rfl
  · intro c l h; cases l; subst h; rfl
  · intro c l x hb hx hn heq
    rw [match_ok_true_iff] at heq
    have hpost := heq.2.2.2
    unfold postReject at hpost
    rw [hb, hn] at hpost
    simp [truthyQ, hx.ne', hx] at hpost
  · intro c l n hb hn hnone heq
    rw [match_ok_true_iff] at heq
    have hpost := heq.2.2.2
    unfold postReject at hpost
    rw [hb, hnone] at hpost
    simp [truthyZ, hn.ne', hn] at hpost
  · intro c l x hb hx hn heq
    rw [match_ok_true_iff] at heq
    have hpost := heq.2.2.2
    unfold postReject at hpost
    rw [hb, hn] at hpost
    simp [truthyQ, hx.ne', hx] at hpost
  · intro c l n hb hn hnone heq
    rw [match_ok_true_iff] at heq
    have hpost := heq.2.2.2
    unfold postReject at hpost
    rw [hb, hnone] at hpost
    simp [truthyZ, hn.ne', hn] at hpost
  · intro c l hp ht hv
    rw [match_error_iff]
    refine ⟨hp, Or.inl ?_⟩
    cases hb : c.precio_min with
    | none => rw [hb] at ht; exact absurd ht (by simp [truthyQ])
    | some m =>
      rw [hb] at ht
      simp only [truthyQ, decide_eq_true_eq] at ht
      rw [hv]
      exact lowCheck_missing ht

/-- Closed instance of the C4 amended theorem. -/
theorem c4_witness :
    (∃ b, _match { distrito := some "Lima", precio := some 100 }
        { distritos := ["Lima"], precio_min := some 50 } = .ok b) ∧
    _match { distrito := some "Lima" }
        { distritos := ["Lima"], area_min_m2 := some 10 } ≠ .ok true ∧
    _match { distrito := some "Lima" }
        { distritos := ["Lima"], precio_min := some 50 } = .error () :=
  ⟨c4_matcher_missing_attribute_behaviour.1
      { distritos := ["Lima"], precio_min := some 50 }
      { distrito := some "Lima", precio := some 100 } (by decide),
   c4_matcher_missing_attribute_behaviour.2.2.2.2.2.1
      { distritos := ["Lima"], area_min_m2 := some 10 }
      { distrito := some "Lima" } 10 rfl (by norm_num) rfl,
   c4_matcher_missing_attribute_behaviour.2.2.2.2.2.2.2.2.2
      { distritos := ["Lima"], precio_min := some 50 }
      { distrito := some "Lima" } (by decide) (by decide) rfl⟩

/-- C7 counterexample: with `priceMax` set to `0` the bound is Python-falsy
and imposes no constraint, so a listing priced `priceMax + 0.01 = 0.01`
that satisfies the other constraints is included, not excluded. -/
theorem c7_counterexample :
    _match { distrito := some "Miraflores", precio := some (0 + 1 / 100) }
      { distritos := ["Miraflores"], precio_max := some 0 } = .ok true :=
  rfl

/-- C7 amended: for a filter whose `priceMax` is set to a nonzero value,
the bound is inclusive — if a listing passes with price `pm = priceMax`
unchanged from some passing price `p`, then the same listing at price `pm`
passes, and at price `pm + 0.01` it is rejected. -/
theorem c7_priceMax_inclusive_boundary
    (c : ConsultaEstructurada) (l : Listing) (p pm : ℚ)
    (hmax : c.precio_max = some pm) (hnz : pm ≠ 0)
    (hp : l.precio = some p) (hok : _match l c = .ok true) :
    _match { l with precio := some pm } c = .ok true ∧
    _match { l with precio := some (pm + 1 / 100) } c = .ok false := by
  rw [match_ok_true_iff] at hok
  obtain ⟨hpre, hlow, hhigh, hpost⟩ := hok
  rw [hmax, hp] at hhigh
  rw [highCheck_some hnz] at hhigh
  have hple : p ≤ pm := by
    have := Except.ok.inj hhigh
    simpa using not_lt.mp (by simpa using this)
  have hlow' : ∀ q : ℚ, p ≤ q → lowCheck c.precio_min (some q) = .ok false := by
    intro q hq
    cases hbm : c.precio_min with
    | none => rfl
    | some m =>
      by_cases hm : m = 0
      · subst hm; exact lowCheck_zero _
      · rw [hbm, hp, lowCheck_some hm] at hlow
        have hmp : ¬ p < m := by simpa using Except.ok.inj hlow
        rw [lowCheck_some hm]
        simp [not_lt_of_ge (le_trans (not_lt.mp hmp) hq)]
  constructor
  · refine match_accept hpre ?_ ?_ ?_
    · exact hlow' pm hple
    · rw [hmax, highCheck_some hnz]; simp
    · exact hpost
  · refine match_reject_high hpre ?_ ?_
    · exact hlow' (pm + 1 / 100) (hple.trans (by norm_num))
    · rw [hmax, highCheck_some hnz]
      norm_num

/-- Closed instance of the C7 amended theorem. -/
theorem c7_witness :
    _match { distrito := some "Lima", precio := some 1000 }
      { distritos := ["Lima"], precio_max := some 1000 } = .ok true ∧
    _match { distrito := some "Lima", precio := some (1000 + 1 / 100) }
      { distritos := ["Lima"], precio_max := some 1000 } = .ok false :=
  c7_priceMax_inclusive_boundary
    { distritos := ["Lima"], precio_max := some 1000 }
    { distrito := some "Lima", precio := some 500 } 500 1000 rfl
    (by norm_num) rfl rfl

theorem truthyList_eq_isSet (x : Option (List String)) :
    truthyList x = isSetListField x := by cases x <;> rfl

theorem truthyStr_eq_isSet (x : Option String) :
    truthyStr x = isSetStrField x := by cases x <;> rfl

/-- C5: `_is_valid_consulta` is exactly the spec's `isActionable`
characterization — districts non-empty and at least one extra parameter
set — and a filter with no districts is never valid. -/
theorem c5_is_valid_iff_actionable :
    (∀ c : ConsultaEstructurada, _is_valid_consulta c = isActionable_spec c) ∧
    (∀ c : ConsultaEstructurada, c.distritos = [] →
      _is_valid_consulta c = false) := by
  constructor
  · intro c
    unfold _is_valid_consulta isActionable_spec
    by_cases hd : c.distritos = []
    · simp [hd]
    · rw [if_neg hd]
      have hdt : decide (c.distritos ≠ []) = true := by simp [hd]
      rw [hdt, Bool.true_and, truthyList_eq_isSet, truthyStr_eq_isSet]
      cases hop : isSetStrField c.operacion
      · simp
      · simp
  · intro c hd
    unfold _is_valid_consulta
    rw [if_pos hd]

/-- Closed instance of the C5 theorem. -/
theorem c5_witness :
    _is_valid_consulta { } = isActionable_spec { } ∧
    _is_valid_consulta { } = false :=
  ⟨c5_is_valid_iff_actionable.1 { }, c5_is_valid_iff_actionable.2 { } rfl⟩

theorem precioExtract_ceiling {t : List Char} {g2 : Option (List Char)}
    {g3 : List Char} (hr : searchRangeMoney t = some (.ceiling g2 g3)) :
    precioExtract t =
      match _to_float g3 with
      | none => Except.error ()
      | some v => Except.ok (none, some v, _norm_moneda (g2.getD [])) := by
  unfold precioExtract; rw [hr]

theorem precioExtract_between {t : List Char} {g4 g6 : List Char}
    {g7 : Option (List Char)}
    (hr : searchRangeMoney t = some (.between g4 g6 g7)) :
    precioExtract t =
      match _to_float g4 with
      | none => Except.error ()
      | some lo =>
        match _to_float g6 with
        | none => Except.error ()
        | some hi =>
          Except.ok (some (min lo hi), some (max lo hi),
            _norm_moneda (g7.getD [])) := by
  unfold precioExtract; rw [hr]

theorem precioExtract_fallback {t : List Char}
    (hr : searchRangeMoney t = none) :
    precioExtract t =
      match searchMoney t with
      | some (g1, g2) =>
        match _to_float g2 with
        | none => Except.error ()
        | some v => Except.ok (none, some v, _norm_moneda g1)
      | none => Except.ok (none, none, none) := by
  unfold precioExtract; rw [hr]

theorem precioExtract_min_le_max (t : List Char) (pmin pmax : Option ℚ)
    (mon : Option String) (a b : ℚ)
    (h : precioExtract t = .ok (pmin, pmax, mon))
    (ha : pmin = some a) (hb : pmax = some b) : a ≤ b := by
  cases hr : searchRangeMoney t with
  | some m =>
    cases m with
    | ceiling g2 g3 =>
      rw [precioExtract_ceiling hr] at h
      cases hf : _to_float g3 with
      | none => rw [hf] at h; exact absurd h (by simp)
      | some v =>
        rw [hf] at h
        simp only [Except.ok.injEq, Prod.mk.injEq] at h
        rw [← h.1] at ha
        exact absurd ha (by simp)
    | between g4 g6 g7 =>
      rw [precioExtract_between hr] at h
      cases hf4 : _to_float g4 with
      | none => rw [hf4] at h; exact absurd h (by simp)
      | some lo =>
        rw [hf4] at h
        cases hf6 : _to_float g6 with
        | none => rw [hf6] at h; exact absurd h (by simp)
        | some hi =>
          rw [hf6] at h
          simp only [Except.ok.injEq, Prod.mk.injEq] at h
          rw [← h.1] at ha
          rw [← h.2.1] at hb
          rw [← Option.some.inj ha, ← Option.some.inj hb]
          exact min_le_max
  | none =>
    rw [precioExtract_fallback hr] at h
    cases hm : searchMoney t with
    | some g =>
      obtain ⟨g1, g2⟩ := g
      rw [hm] at h
      dsimp only at h
      cases hf : _to_float g2 with
      | none => rw [hf] at h; exact absurd h (by simp)
      | some v =>
        rw [hf] at h
        simp only [Except.ok.injEq, Prod.mk.injEq] at h
        rw [← h.1] at ha
        exact absurd ha (by simp)
    | none =>
      rw [hm] at h
      simp only [Except.ok.injEq, Prod.mk.injEq] at h
      rw [← h.1] at ha
      exact absurd ha (by simp)

/-- Inversion of a successful parse: the price triple comes from
`precioExtract` and the district list is the sorted deduplication of the
detected canonical districts. -/
theorem parse_ok_fields (texto : String) (r : ConsultaEstructurada)
    (h : parse_query_to_filters texto = .ok r) :
    precioExtract (pyLower texto) = .ok (r.precio_min, r.precio_max, r.moneda) ∧
    r.distritos = pySortStr (pyDedup (detectDistritos (pyLower texto))) := by
  unfold parse_query_to_filters at h
  dsimp only at h
  cases hp : precioExtract (pyLower texto) with
  | error e => rw [hp] at h; exact absurd h (by simp)
  | ok trip =>
    obtain ⟨pmin, pmax, mon⟩ := trip
    rw [hp] at h
    have hr := Except.ok.inj h
    constructor
    · rw [← hr]
    · rw [← hr]

/-- C6: whenever the extractor returns a filter with both price bounds set,
the lower bound is at most the upper bound (the `entre` branch applies
`min`/`max`, and no other branch sets `precio_min`). -/
theorem c6_priceMin_le_priceMax (texto : String) (r : ConsultaEstructurada)
    (a b : ℚ) (h : parse_query_to_filters texto = .ok r)
    (ha : r.precio_min = some a) (hb : r.precio_max = some b) : a ≤ b :=
  precioExtract_min_le_max _ _ _ _ a b (parse_ok_fields texto r h).1 ha hb

/-- Closed instance of the C6 theorem on an order-reversed range phrase. -/
theorem c6_witness :
    parse_query_to_filters "entre 300 y 200 usd" =
      .ok { precio_min := some 200, precio_max := some 300,
            moneda := some "USD" } ∧
    (200 : ℚ) ≤ 300 :=
  ⟨rfl,
   c6_priceMin_le_priceMax "entre 300 y 200 usd"
     { precio_min := some 200, precio_max := some 300, moneda := some "USD" }
     200 300 rfl rfl rfl⟩

/-- C1: the number token `\d+[\d\.,]*` cannot include a `k`, and a `k`
blocks the `entre ... y ...` separator, so on "entre 200k y 300k usd" (and
its order-reversed variant) neither price path matches and the extractor
returns a filter with no price and no currency at all — not
`priceMin = 200000, priceMax = 300000, currency = USD`; no k-multiplication
logic exists anywhere.  Likewise the advertised example "hasta 250k usd"
yields `priceMax = 250` with no currency. -/
theorem c1_k_suffix_never_multiplied :
    parse_query_to_filters "entre 200k y 300k usd" = .ok { } ∧
    parse_query_to_filters "entre 300k y 200k usd" = .ok { } ∧
    parse_query_to_filters "hasta 250k usd" = .ok { precio_max := some 250 } :=
  ⟨rfl, rfl, rfl⟩

/-- C2 counterexample: the extractor is not total.  On "hasta 1,2,3" the
ceiling pattern captures the numeric token "1,2,3", whose `_to_float`
normalization "1.2.3" is not a valid float, and the resulting `ValueError`
propagates out of `extract` (the price path has no `try/except`). -/
theorem c2_counterexample :
    parse_query_to_filters "hasta 1,2,3" = .error () := rfl

/-- C2 amended: a malformed numeric token is caught locally only in the
area and bathrooms sub-extractions; in the price sub-extraction it
propagates to the caller, so `extract` raises exactly when the price
sub-extraction does, and on price-free unrecognized input it still returns
the all-defaults filter. -/
theorem c2_error_only_from_price_sub_extraction :
    parse_query_to_filters "hasta 1,2,3" = .error () ∧
    parse_query_to_filters "hola" = .ok { } ∧
    (∀ texto : String, (precioExtract (pyLower texto)).isOk = true →
      (parse_query_to_filters texto).isOk = true) := by
  refine ⟨rfl, rfl, ?_⟩
  intro texto h
  cases hp : precioExtract (pyLower texto) with
  | error e =>
    rw [hp] at h
    cases e
    exact absurd h (by decide)
  | ok trip =>
    obtain ⟨pmin, pmax, mon⟩ := trip
    unfold parse_query_to_filters
    dsimp only
    rw [hp]
    rfl

/-- Closed instance of the C2 amended theorem. -/
theorem c2_witness : (parse_query_to_filters "hola").isOk = true :=
  c2_error_only_from_price_sub_extraction.2.2 "hola" rfl

/-- C3 counterexample: on "hasta 2500 soles" the extracted currency is not
PEN — the ceiling pattern's currency group sits before the number, so a
trailing "soles" is never captured and `moneda` stays unset. -/
theorem c3_counterexample :
    ((parse_query_to_filters "hasta 2500 soles").toOption.bind
      ConsultaEstructurada.moneda) ≠ some "PEN" := by
  decide

/-- C3 amended: "hasta 2500 soles" yields `priceMax = 2500` with `priceMin`
unset, and the currency also unset (PEN is only captured from a marker
written before the number, e.g. "hasta s/ 2500"). -/
theorem c3_hasta_2500_soles :
    parse_query_to_filters "hasta 2500 soles" =
      .ok { precio_max := some 2500 } ∧
    parse_query_to_filters "hasta s/ 2500" =
      .ok { precio_max := some 2500, moneda := some "PEN" } :=
  ⟨rfl, rfl⟩

theorem insListing_perm (a : Listing) (l : List Listing) :
    (insListing a l).Perm (a :: l) := by
  induction l with
  | nil => exact List.Perm.refl _
  | cons b t ih =>
    unfold insListing
    by_cases h : keyPrecio a ≤ keyPrecio b
    · rw [if_pos h]
    · rw [if_neg h]
      exact (ih.cons b).trans (List.Perm.swap a b t)

theorem pySortListings_perm (l : List Listing) :
    (pySortListings l).Perm l := by
  induction l with
  | nil => exact List.Perm.refl _
  | cons a t ih => exact (insListing_perm a (pySortListings t)).trans (ih.cons a)

theorem mem_insListing {x a : Listing} {l : List Listing}
    (h : x ∈ insListing a l) : x = a ∨ x ∈ l := by
  have hm := (insListing_perm a l).mem_iff.mp h
  simpa using hm

theorem insListing_pairwise {a : Listing} {l : List Listing}
    (h : List.Pairwise (fun x y => keyPrecio x ≤ keyPrecio y) l) :
    List.Pairwise (fun x y => keyPrecio x ≤ keyPrecio y) (insListing a l) := by
  induction l with
  | nil => simp [insListing]
  | cons b t ih =>
    rw [List.pairwise_cons] at h
    obtain ⟨hb, ht⟩ := h
    unfold insListing
    by_cases hab : keyPrecio a ≤ keyPrecio b
    · rw [if_pos hab]
      refine List.Pairwise.cons ?_ (List.Pairwise.cons hb ht)
      intro y hy
      rcases List.mem_cons.mp hy with rfl | hy
      · exact hab
      · exact hab.trans (hb y hy)
    · rw [if_neg hab]
      refine List.Pairwise.cons ?_ (ih ht)
      intro y hy
      rcases mem_insListing hy with rfl | hy
      · exact (not_le.mp hab).le
      · exact hb y hy

theorem pySortListings_pairwise (l : List Listing) :
    List.Pairwise (fun x y => keyPrecio x ≤ keyPrecio y) (pySortListings l) := by
  induction l with
  | nil => exact List.Pairwise.nil
  | cons a t ih => exact insListing_pairwise ih

/-- Stability of the insertion: the sublist of any single price class is
preserved. -/
theorem insListing_filter_key (a : Listing) (l : List Listing) (v : ℚ) :
    (insListing a l).filter (fun x => decide (keyPrecio x = v)) =
      (a :: l).filter (fun x => decide (keyPrecio x = v)) := by
  induction l with
  | nil => rfl
  | cons b t ih =>
    unfold insListing
    by_cases hab : keyPrecio a ≤ keyPrecio b
    · rw [if_pos hab]
    · rw [if_neg hab]
      by_cases hbv : keyPrecio b = v
      · have hav : ¬ keyPrecio a = v := by
          intro hav
          exact hab (by rw [hav, hbv])
        simp [List.filter_cons, hbv, hav, ih]
      · by_cases hav : keyPrecio a = v
        · simp [List.filter_cons, hbv, hav, ih]
        · simp [List.filter_cons, hbv, hav, ih]

theorem pySortListings_filter_key (l : List Listing) (v : ℚ) :
    (pySortListings l).filter (fun x => decide (keyPrecio x = v)) =
      l.filter (fun x => decide (keyPrecio x = v)) := by
  induction l with
  | nil => rfl
  | cons a t ih =>
    calc (insListing a (pySortListings t)).filter
            (fun x => decide (keyPrecio x = v))
        = (a :: pySortListings t).filter (fun x => decide (keyPrecio x = v)) :=
          insListing_filter_key a (pySortListings t) v
      _ = (a :: t).filter (fun x => decide (keyPrecio x = v)) := by
          simp only [List.filter_cons, ih]

/-- The comprehension, when it completes, is exactly `List.filter` by an
accepting match. -/
theorem filterMatches_eq (c : ConsultaEstructurada) (listings ms : List Listing)
    (h : filterMatches c listings = .ok ms) :
    ms = listings.filter (fun l => decide (_match l c = Except.ok true)) := by
  induction listings generalizing ms with
  | nil =>
    simp only [filterMatches, Except.ok.injEq] at h
    simp [← h]
  | cons l ls ih =>
    unfold filterMatches at h
    cases hm : _match l c with
    | error e => rw [hm] at h; exact absurd h (by simp)
    | ok b =>
      rw [hm] at h
      dsimp only at h
      cases hf : filterMatches c ls with
      | error e => rw [hf] at h; exact absurd h (by simp)
      | ok rest =>
        rw [hf] at h
        dsimp only at h
        have hrest := ih rest hf
        cases b
        · have hmb : decide (_match l c = Except.ok true) = false := by
            simp [hm]
          simp only [List.filter_cons, hmb, if_false]
          rw [← hrest]
          exact (Except.ok.inj h).symm
        · have hmb : decide (_match l c = Except.ok true) = true := by
            simp [hm]
          simp only [List.filter_cons, hmb, if_true]
          rw [← hrest]
          exact (Except.ok.inj h).symm

/-- C8 amended: whenever the matcher completes on every listing, `buscar`'s
core returns exactly the listings accepted by `_match`, stably sorted
ascending by price (missing prices sort as 0, currencies are never
converted): the result is a permutation of the accepted sublist, pairwise
sorted by the price key, and each price class keeps its original relative
order.  On the three mock listings with the filter
`{operation: venta, districts: {Miraflores, Santiago de Surco}}` (an
actionable filter) it returns the Surco listing (USD 205000) then the
Miraflores listing (USD 240000), excluding the San Borja rental. -/
theorem c8_buscar_filters_and_sorts :
    (∀ (c : ConsultaEstructurada) (listings ms : List Listing),
      filterMatches c listings = .ok ms →
      buscarCore c listings = .ok (pySortListings ms) ∧
      ms = listings.filter (fun l => decide (_match l c = Except.ok true)) ∧
      (pySortListings ms).Perm ms ∧
      List.Pairwise (fun x y => keyPrecio x ≤ keyPrecio y)
        (pySortListings ms) ∧
      (∀ v : ℚ, (pySortListings ms).filter (fun x => decide (keyPrecio x = v))
          = ms.filter (fun x => decide (keyPrecio x = v)))) ∧
    _is_valid_consulta consultaVenta = true ∧
    buscarCore consultaVenta MOCK_DATA =
      .ok [mockSurco, mockMiraflores] := by
  refine ⟨?_, rfl, rfl⟩
  intro c listings ms h
  refine ⟨?_, filterMatches_eq c listings ms h, pySortListings_perm ms,
    pySortListings_pairwise ms, fun v => pySortListings_filter_key ms v⟩
  unfold buscarCore
  rw [h]
  rfl

/-- C8 counterexample: an actionable filter (district plus `priceMin`)
against a listing sequence containing a price-less listing in the district
makes `buscar` raise instead of returning a result list. -/
theorem c8_counterexample :
    _is_valid_consulta
        { distritos := ["Miraflores"], precio_min := some 1000 } = true ∧
    buscarCore { distritos := ["Miraflores"], precio_min := some 1000 }
      [{ distrito := some "Miraflores" }] = .error () :=
  ⟨rfl, rfl⟩

/-- Closed instance of the C8 amended theorem at the end-to-end scenario. -/
theorem c8_witness :
    buscarCore consultaVenta MOCK_DATA =
      .ok (pySortListings [mockSurco, mockMiraflores]) ∧
    [mockSurco, mockMiraflores] =
      MOCK_DATA.filter
        (fun l => decide (_match l consultaVenta = Except.ok true)) :=
  ⟨(c8_buscar_filters_and_sorts.1 consultaVenta MOCK_DATA
      [mockSurco, mockMiraflores] rfl).1,
   (c8_buscar_filters_and_sorts.1 consultaVenta MOCK_DATA
      [mockSurco, mockMiraflores] rfl).2.1⟩

theorem char_toNat_inj {a b : Char} (h : a.toNat = b.toNat) : a = b :=
  Char.eq_of_val_eq (UInt32.toNat.inj h)

theorem string_toList_inj {a b : String} (h : a.toList = b.toList) : a = b := by
  cases a; cases b
  simp only [String.toList] at h
  simp [h]

theorem ltL_irrefl (l : List Char) : ltL l l = false := by
  induction l with
  | nil => rfl
  | cons a as ih => simp [ltL, ih]

theorem ltL_asymm : ∀ {l₁ l₂ : List Char},
    ltL l₁ l₂ = true → ltL l₂ l₁ = false
  | [], l₂ => by cases l₂ <;> simp [ltL]
  | _ :: _, [] => by simp [ltL]
  | a :: as, b :: bs => by
    intro h
    by_cases h1 : a.toNat < b.toNat
    · simp [ltL, h1, Nat.lt_asymm h1]
    · by_cases h2 : b.toNat < a.toNat
      · simp [ltL, h1, h2] at h
      · simp only [ltL, if_neg h1, if_neg h2] at h
        simp only [ltL, if_neg h1, if_neg h2]
        exact ltL_asymm h

theorem ltL_trans : ∀ {l₁ l₂ l₃ : List Char},
    ltL l₁ l₂ = true → ltL l₂ l₃ = true → ltL l₁ l₃ = true
  | [], l₂, l₃ => by
    cases l₂ <;> cases l₃ <;> simp [ltL]
  | _ :: _, [], l₃ => by simp [ltL]
  | _ :: _, _ :: _, [] => by intro _ h2; simp [ltL] at h2
  | a :: as, b :: bs, c :: cs => by
    intro h1 h2
    by_cases hab : a.toNat < b.toNat
    · by_cases hbc : b.toNat < c.toNat
      · simp [ltL, Nat.lt_trans hab hbc]
      · by_cases hcb : c.toNat < b.toNat
        · simp [ltL, hbc, hcb] at h2
        · have hbc' : b.toNat = c.toNat := Nat.le_antisymm
            (Nat.not_lt.mp hcb) (Nat.not_lt.mp hbc)
          simp [ltL, hbc' ▸ hab]
    · by_cases hba : b.toNat < a.toNat
      · simp [ltL, hab, hba] at h1
      · have hab' : a.toNat = b.toNat := Nat.le_antisymm
          (Nat.not_lt.mp hba) (Nat.not_lt.mp hab)
        simp only [ltL, if_neg hab, if_neg hba] at h1
        by_cases hbc : b.toNat < c.toNat
        · simp [ltL, hab' ▸ hbc]
        · by_cases hcb : c.toNat < b.toNat
          · simp [ltL, hbc, hcb] at h2
          · simp only [ltL, if_neg hbc, if_neg hcb] at h2
            have hac : ¬ a.toNat < c.toNat := hab' ▸ hbc
            have hca : ¬ c.toNat < a.toNat := by
              rw [hab']; exact hcb
            simp only [ltL, if_neg hac, if_neg hca]
            exact ltL_trans h1 h2

theorem ltL_connex : ∀ {l₁ l₂ : List Char}, l₁ ≠ l₂ →
    ltL l₁ l₂ = true ∨ ltL l₂ l₁ = true
  | [], [] => fun h => absurd rfl h
  | [], _ :: _ => fun _ => Or.inl rfl
  | _ :: _, [] => fun _ => Or.inr rfl
  | a :: as, b :: bs => by
    intro h
    by_cases hab : a.toNat < b.toNat
    · exact Or.inl (by simp [ltL, hab])
    · by_cases hba : b.toNat < a.toNat
      · exact Or.inr (by simp [ltL, hba])
      · have hab' : a = b := char_toNat_inj
          (Nat.le_antisymm (Nat.not_lt.mp hba) (Nat.not_lt.mp hab))
        subst hab'
        have hts : as ≠ bs := fun he => h (by rw [he])
        rcases ltL_connex hts with ht | ht
        · exact Or.inl (by simpa [ltL, Nat.lt_irrefl] using ht)
        · exact Or.inr (by simpa [ltL, Nat.lt_irrefl] using ht)

/-- Non-strict comparison transfer: if `x` is not below `y` and `y` not
below `z`, then `x` is not below `z` (phrased on the `false` side of
`ltL`). -/
theorem ltL_le_trans {x y z : List Char} (h1 : ltL y x = false)
    (h2 : ltL z y = false) : ltL z x = false := by
  cases hzx : ltL z x with
  | false => rfl
  | true =>
    exfalso
    by_cases hzy : z = y
    · rw [hzy] at hzx
      simp [hzx] at h1
    · rcases ltL_connex hzy with h | h
      · simp [h] at h2
      · have ht := ltL_trans h hzx
        simp [ht] at h1

theorem insSorted_perm (a : String) (l : List String) :
    (insSorted a l).Perm (a :: l) := by
  induction l with
  | nil => exact List.Perm.refl _
  | cons b t ih =>
    unfold insSorted
    by_cases h : ltL b.toList a.toList = true
    · rw [if_pos h]
      exact (ih.cons b).trans (List.Perm.swap a b t)
    · rw [if_neg h]

theorem pySortStr_perm (l : List String) : (pySortStr l).Perm l := by
  induction l with
  | nil => exact List.Perm.refl _
  | cons a t ih => exact (insSorted_perm a (pySortStr t)).trans (ih.cons a)

theorem mem_insSorted {x a : String} {l : List String}
    (h : x ∈ insSorted a l) : x = a ∨ x ∈ l := by
  have hm := (insSorted_perm a l).mem_iff.mp h
  simpa using hm

theorem insSorted_pairwise {a : String} {l : List String}
    (h : List.Pairwise (fun x y => ltL y.toList x.toList = false) l) :
    List.Pairwise (fun x y => ltL y.toList x.toList = false)
      (insSorted a l) := by
  induction l with
  | nil => simp [insSorted]
  | cons b t ih =>
    rw [List.pairwise_cons] at h
    obtain ⟨hb, ht⟩ := h
    unfold insSorted
    by_cases hba : ltL b.toList a.toList = true
    · rw [if_pos hba]
      refine List.Pairwise.cons ?_ (ih ht)
      intro y hy
      rcases mem_insSorted hy with rfl | hy
      · exact ltL_asymm hba
      · exact hb y hy
    · rw [if_neg hba]
      have hba' : ltL b.toList a.toList = false := by
        cases hq : ltL b.toList a.toList
        · rfl
        · exact absurd hq hba
      refine List.Pairwise.cons ?_ (List.Pairwise.cons hb ht)
      intro y hy
      rcases List.mem_cons.mp hy with rfl | hy
      · exact hba'
      · exact ltL_le_trans hba' (hb y hy)

theorem pySortStr_pairwise (l : List String) :
    List.Pairwise (fun x y => ltL y.toList x.toList = false)
      (pySortStr l) := by
  induction l with
  | nil => exact List.Pairwise.nil
  | cons a t ih => exact insSorted_pairwise ih

theorem mem_dedupGo (seen l : List String) (x : String) :
    x ∈ dedupGo seen l ↔ (x ∈ l ∧ x ∉ seen) := by
  induction l generalizing seen with
  | nil => simp [dedupGo]
  | cons a t ih =>
    unfold dedupGo
    cases hc : seen.contains a
    · rw [if_neg (by simp [hc])]
      have hnotin : a ∉ seen := by
        intro hin
        have : seen.contains a = true := List.elem_iff.mpr hin
        rw [hc] at this
        exact Bool.noConfusion this
      constructor
      · intro hx
        rcases List.mem_cons.mp hx with rfl | hx
        · exact ⟨List.mem_cons_self x t, hnotin⟩
        · obtain ⟨h1, h2⟩ := (ih (a :: seen)).mp hx
          exact ⟨List.mem_cons_of_mem a h1,
            fun hin => h2 (List.mem_cons_of_mem a hin)⟩
      · rintro ⟨hx, hns⟩
        rcases List.mem_cons.mp hx with rfl | hx
        · exact List.mem_cons_self x _
        · by_cases hxa : x = a
          · subst hxa; exact List.mem_cons_self x _
          · exact List.mem_cons_of_mem a ((ih (a :: seen)).mpr
              ⟨hx, by simp [hxa, hns]⟩)
    · rw [if_pos (by simp [hc])]
      have hain : a ∈ seen := List.elem_iff.mp hc
      rw [ih seen]
      constructor
      · rintro ⟨h1, h2⟩
        exact ⟨List.mem_cons_of_mem a h1, h2⟩
      · rintro ⟨h1, h2⟩
        rcases List.mem_cons.mp h1 with rfl | h1
        · exact absurd hain h2
        · exact ⟨h1, h2⟩

theorem dedupGo_nodup (seen l : List String) : (dedupGo seen l).Nodup := by
  induction l generalizing seen with
  | nil => exact List.nodup_nil
  | cons a t ih =>
    unfold dedupGo
    cases hc : seen.contains a
    · rw [if_neg (by simp [hc])]
      refine List.nodup_cons.mpr ⟨?_, ih (a :: seen)⟩
      intro hmem
      have := ((mem_dedupGo (a :: seen) t a).mp hmem).2
      exact this (List.mem_cons_self a seen)
    · rw [if_pos (by simp [hc])]
      exact ih seen

theorem pyDedup_nodup (l : List String) : (pyDedup l).Nodup :=
  dedupGo_nodup [] l

theorem mem_pyDedup (l : List String) (x : String) :
    x ∈ pyDedup l ↔ x ∈ l := by
  have := mem_dedupGo [] l x
  simpa [pyDedup] using this

/-- A duplicate-free list sorted by the non-strict key order is strictly
sorted. -/
theorem sortStr_strict (l : List String) (hnd : l.Nodup) :
    List.Pairwise (fun x y => ltL x.toList y.toList = true) (pySortStr l) := by
  have hle := pySortStr_pairwise l
  have hnd' : (pySortStr l).Nodup := (pySortStr_perm l).nodup_iff.mpr hnd
  refine (hle.and hnd').imp ?_
  rintro x y ⟨h1, h2⟩
  have hne : x.toList ≠ y.toList := fun hc => h2 (string_toList_inj hc)
  rcases ltL_connex hne with h | h
  · exact h
  · exact Bool.noConfusion (h1.symm.trans h)

/-- Two strictly sorted lists with the same members are equal. -/
theorem strictSorted_eq_of_mem_iff : ∀ {l₁ l₂ : List String},
    List.Pairwise (fun x y => ltL x.toList y.toList = true) l₁ →
    List.Pairwise (fun x y => ltL x.toList y.toList = true) l₂ →
    (∀ x, x ∈ l₁ ↔ x ∈ l₂) → l₁ = l₂
  | [], [] => fun _ _ _ => rfl
  | [], b :: bs => fun _ _ hm =>
      absurd ((hm b).mpr (List.mem_cons_self b bs)) (List.not_mem_nil b)
  | a :: as, [] => fun _ _ hm =>
      absurd ((hm a).mp (List.mem_cons_self a as)) (List.not_mem_nil a)
  | a :: as, b :: bs => by
    intro h1 h2 hm
    rw [List.pairwise_cons] at h1 h2
    obtain ⟨ha, h1t⟩ := h1
    obtain ⟨hb, h2t⟩ := h2
    have hab : a = b := by
      rcases List.mem_cons.mp ((hm a).mp (List.mem_cons_self a as))
        with h | h
      · exact h
      · rcases List.mem_cons.mp ((hm b).mpr (List.mem_cons_self b bs))
          with h' | h'
        · exact h'.symm
        · exact absurd (ltL_trans (ha b h') (hb a h))
            (by simp [ltL_irrefl])
    subst hab
    have htails : as = bs := by
      refine strictSorted_eq_of_mem_iff h1t h2t ?_
      intro x
      constructor
      · intro hx
        have hxa : x ≠ a := by
          intro hxa
          subst hxa
          exact absurd (ha x hx) (by simp [ltL_irrefl])
        rcases List.mem_cons.mp ((hm x).mp (List.mem_cons_of_mem a hx))
          with h | h
        · exact absurd h hxa
        · exact h
      · intro hx
        have hxa : x ≠ a := by
          intro hxa
          subst hxa
          exact absurd (hb x hx) (by simp [ltL_irrefl])
        rcases List.mem_cons.mp ((hm x).mpr (List.mem_cons_of_mem a hx))
          with h | h
        · exact absurd h hxa
        · exact h
    rw [htails]

/-- C9: the `districts` field of every successfully extracted filter is
strictly sorted in ascending code-point order of the canonical names (hence
duplicate-free and sorted), and any two texts whose detected canonical
district sets coincide — irrespective of mention order or of which synonyms
were used — receive identical `districts` values. -/
theorem c9_districts_sorted_dedup_deterministic :
    (∀ (texto : String) (r : ConsultaEstructurada),
      parse_query_to_filters texto = .ok r →
      List.Pairwise (fun x y : String => ltL x.toList y.toList = true)
        r.distritos) ∧
    (∀ (t₁ t₂ : String) (r₁ r₂ : ConsultaEstructurada),
      parse_query_to_filters t₁ = .ok r₁ →
      parse_query_to_filters t₂ = .ok r₂ →
      (∀ x, x ∈ detectDistritos (pyLower t₁) ↔
        x ∈ detectDistritos (pyLower t₂)) →
      r₁.distritos = r₂.distritos) := by
  constructor
  · intro texto r h
    rw [(parse_ok_fields texto r h).2]
    exact sortStr_strict _ (pyDedup_nodup _)
  · intro t₁ t₂ r₁ r₂ h₁ h₂ hm
    rw [(parse_ok_fields t₁ r₁ h₁).2, (parse_ok_fields t₂ r₂ h₂).2]
    refine strictSorted_eq_of_mem_iff
      (sortStr_strict _ (pyDedup_nodup _))
      (sortStr_strict _ (pyDedup_nodup _)) ?_
    intro x
    rw [(pySortStr_perm _).mem_iff, (pySortStr_perm _).mem_iff,
      mem_pyDedup, mem_pyDedup]
    exact hm x

/-- Closed instance of the C9 theorem: "surco y miraflores" and
"miraflores y santiago de surco" mention the same district set through
different synonyms and in a different order, and receive the same strictly
sorted `districts` value. -/
theorem c9_witness :
    List.Pairwise (fun x y : String => ltL x.toList y.toList = true)
      (["Miraflores", "Santiago de Surco"] : List String) ∧
    (["Miraflores", "Santiago de Surco"] : List String) =
      ["Miraflores", "Santiago de Surco"] :=
  ⟨c9_districts_sorted_dedup_deterministic.1 "surco y miraflores"
      { distritos := ["Miraflores", "Santiago de Surco"] } rfl,
   c9_districts_sorted_dedup_deterministic.2 "surco y miraflores"
      "miraflores y santiago de surco"
      { distritos := ["Miraflores", "Santiago de Surco"] }
      { distritos := ["Miraflores", "Santiago de Surco"] } rfl rfl
      (by
        intro x
        have e₁ : detectDistritos (pyLower "surco y miraflores") =
            ["Santiago de Surco", "Miraflores"] := rfl
        have e₂ : detectDistritos (pyLower "miraflores y santiago de surco") =
            ["Santiago de Surco", "Santiago de Surco", "Miraflores"] := rfl
        rw [e₁, e₂]
        simp [List.mem_cons])⟩

end MKFinder
